import Mathlib

/-!
# Verification of the krux-installer acquisition–verification–flashing pipeline

Shallow embedding of `src/krux-installer.py` (the CLI pipeline orchestrator)
and, where the helper modules it imports are absent from the source tree,
models reconstructed from the specification and the unit tests
(`src/tests/test_023_base_flasher.py`).

The orchestrator is modelled as a function from parsed CLI arguments and an
environment oracle (file existence, user answers to prompts, verification
outcomes) to a trace of side-effecting events together with an
`Except String` outcome mirroring Python's uncaught `RuntimeError`.
-/

namespace KruxInstaller

/-! ## Release-channel guards (krux-installer.py lines 286 and 334)

The orchestrator dispatches on `re.findall(r"odudex/krux_binaries", v)`
(substring search) and `re.findall(r"v2\d\.\d+\.\d+", v)` (regex search
anywhere in the string).  `\d` is embedded as `Char.isDigit`. -/

/-- `occursIn p l`: the list `p` occurs contiguously inside `l`. -/
def occursIn (p l : List Char) : Bool :=
  l.tails.any (fun t => p.isPrefixOf t)

/-- Embedding of `re.findall(r"odudex/krux_binaries", version)` being
non-empty: the literal beta-channel marker occurs as a substring. -/
def betaGuard (version : String) : Bool :=
  occursIn "odudex/krux_binaries".data version.data

/-- Does the regex `v2\d\.\d+\.\d+` match at the head of this character
list?  The first `\d+` is taken greedily, which is complete here because
`.` is not a digit. -/
def officialAt : List Char → Bool
  | c1 :: c2 :: c3 :: c4 :: rest =>
      c1 == 'v' && c2 == '2' && c3.isDigit && c4 == '.' &&
        (let p := rest.span (fun d => d.isDigit)
         !p.1.isEmpty &&
           (match p.2 with
            | c5 :: c6 :: _ => c5 == '.' && c6.isDigit
            | _ => false))
  | _ => false

/-- Embedding of `re.findall(r"v2\d\.\d+\.\d+", version)` being non-empty:
the pattern matches at some position of the string. -/
def officialGuard (version : String) : Bool :=
  version.data.tails.any officialAt

/-- The artifact set selected by a firmware-version string. -/
inductive Channel where
  | beta
  | official
  | neither
deriving DecidableEq, Repr

/-- The `if re.findall(beta) ... elif re.findall(official)` dispatch of the
firmware branch (krux-installer.py lines 286 and 334): the beta marker is
tested first. -/
def selectChannel (version : String) : Channel :=
  if betaGuard version then Channel.beta
  else if officialGuard version then Channel.official
  else Channel.neither

/-! ## Flash-target paths (krux-installer.py lines 345–352 and 370–377)

`"/".join([...])` is embedded as `String.intercalate "/"`.  Note the
source's third list element carries its own leading slash
(`f"/maixpy_{device}"`). -/

/-- `KBOOT_NAME` as constructed by the official flash branch. -/
def KBOOT_NAME (destdir version device : String) : String :=
  String.intercalate "/"
    [destdir, "krux-" ++ version, "/maixpy_" ++ device, "kboot.kfpkg"]

/-- `FIRMWARE_NAME` as constructed by the official non-flash branch. -/
def FIRMWARE_NAME (destdir version device : String) : String :=
  String.intercalate "/"
    [destdir, "krux-" ++ version, "/maixpy_" ++ device, "firmware.bin"]

/-! ## Device catalog -/

/-- Modelled from the spec: the module `src/utils/flasher/base_flasher.py`
(the port/board setters backing the device lookup) is not under `src/`;
only its unit tests are.  The closed device set and the vendor-ID/codename
attributes follow §3 of the spec, and the concrete values and the
`ValueError("Device not implemented: ...")` failure follow the assertions
of `src/tests/test_023_base_flasher.py`. -/
def deviceCatalog (device : String) : Except String (String × String) :=
  if device = "amigo" then Except.ok ("0403", "goE")
  else if device = "amigo_tft" then Except.ok ("0403", "goE")
  else if device = "amigo_ips" then Except.ok ("0403", "goE")
  else if device = "m5stickv" then Except.ok ("0403", "goE")
  else if device = "bit" then Except.ok ("0403", "goE")
  else if device = "cube" then Except.ok ("0403", "goE")
  else if device = "dock" then Except.ok ("7523", "dan")
  else if device = "yahboom" then Except.ok ("7523", "goE")
  else Except.error ("Device not implemented: " ++ device)

/-- The closed set of supported device identifiers (spec §3). -/
def supportedDevices : List String :=
  ["amigo", "amigo_tft", "amigo_ips", "m5stickv", "bit", "dock", "yahboom", "cube"]

/-! ## Device listing (krux-installer.py lines 120–122) -/

/-- Python list slicing `l[start:stop]` for `0 ≤ start ≤ stop` (no negative
indices occur in the source). -/
def pySlice (l : List α) (start stop : Nat) : List α :=
  (l.drop start).take (stop - start)

/-- Modelled from the spec: `VALID_DEVICES` is imported from
`src/utils/selector`, which is not under `src/`.  Spec §4.2: the underlying
table begins with a reserved "unset" sentinel, followed by the Device
identifiers of §3. -/
def VALID_DEVICES : List String := "unset" :: supportedDevices

/-- The `--available-devices` branch: `VALID_DEVICES[1:len(VALID_DEVICES)]`. -/
def availableDevicesBranch (validDevices : List String) : List String :=
  pySlice validDevices 1 validDevices.length

/-! ## BaseFlasher firmware setter -/

/-- A flasher's mutable configuration, as far as the firmware attribute is
concerned. -/
structure BaseFlasher where
  firmware : Option String
deriving DecidableEq, Repr

/-- Modelled from the spec: the module `src/utils/flasher/base_flasher.py`
is not under `src/` and spec §4.7 does not describe the firmware setter;
the behavior is pinned by `src/tests/test_023_base_flasher.py`
(`test_set_firmware` / `test_fail_set_firmware`): the setter consults
`os.path.exists` and raises `ValueError("File do not exist: <p>")` when the
file is absent, otherwise stores the path. -/
def setFirmware (fileExists : String → Bool) (f : BaseFlasher) (p : String) :
    Except String BaseFlasher :=
  if fileExists p then Except.ok { f with firmware := some p }
  else Except.error ("File do not exist: " ++ p)

/-! ## Orchestrator trace model (krux-installer.py lines 110–382)

Side effects are recorded as events; `print` calls carry no decision
content and are not recorded.  Each `input(...)` prompt is identified by
the artifact it is about; the user's reply is an environment oracle. -/

/-- The interactive prompts the orchestrator issues (identified by the
artifact path / device they mention; the surrounding message text carries
no decision content). -/
inductive Prompt where
  /-- `Do you want to download <path> again? [y/n]` -/
  | redownload (path : String)
  /-- `Do you want to download <path> for <device> again? [y/n]` (beta) -/
  | redownloadBeta (path device : String)
  /-- `Please connect your <device> and press enter` -/
  | connect (device : String)
deriving DecidableEq, Repr

/-- The side-effecting calls the orchestrator makes, in order. -/
inductive Event where
  /-- `ZipDownloader(version, destdir).download()` -/
  | downloadZip (version destdir : String)
  /-- `Sha256Downloader(version, destdir).download()` -/
  | downloadSha (version destdir : String)
  /-- `SigDownloader(version, destdir).download()` -/
  | downloadSig (version destdir : String)
  /-- `PemDownloader(destdir).download()` -/
  | downloadPem (destdir : String)
  /-- `BetaDownloader(device, "kboot.kfpkg", destdir).download()` -/
  | downloadKbootBeta (device destdir : String)
  /-- `BetaDownloader(device, "firmware.bin", destdir).download()` -/
  | downloadBinBeta (device destdir : String)
  /-- `verify_sha256sum(filename)` returned `result` -/
  | verifySha (filename : String) (result : Bool)
  /-- `verify_sig(filename, pemfile)` returned `result` -/
  | verifySig (filename pemfile : String) (result : Bool)
  /-- `KbootUnzip(filename, device, output).load()` -/
  | unzipKboot (filename device output : String)
  /-- `FirmwareUnzip(filename, device, output).load()` -/
  | unzipFirmware (filename device output : String)
  /-- `Flasher(firmware).flash()` -/
  | flash (firmware : String)
  /-- `Wiper().wipe()` -/
  | wipe
deriving DecidableEq, Repr

/-- Environment oracle: the state of the filesystem, the user's replies,
and the boolean outcomes of the two verifiers (spec §4.4/§4.5: `verify`
returns a boolean; the verifier modules are not under `src/`, so their
outcomes are oracles keyed by the file names they are given). -/
structure Env where
  fileExists : String → Bool
  answer : Prompt → String
  shaVerify : String → Bool
  sigVerify : String → String → Bool

/-- Parsed CLI arguments (argparse namespace).  String-valued options are
`Option String` (`none` when absent); `destdir` defaults to the OS temp
directory so it is always present. -/
structure Args where
  version : Bool
  availableFirmwares : Bool
  availableDevices : Bool
  wipeOpt : Bool
  firmwareDevice : Option String
  firmwareVersion : Option String
  destdir : String
  flash : Bool

/-- Python truthiness of an optional string argument: `None` and the empty
string are falsy. -/
def truthy : Option String → Bool
  | none => false
  | some s => !(s == "")

/-- Modelled from the spec: the `src/utils/downloader` module is not under
`src/`; spec §4.3/§6 — `download()` returns the path of the artifact it
wrote, which is its deterministic on-disk path `krux-<version>.zip` under
`destdir`. -/
def zipDownloadResult (version destdir : String) : String :=
  destdir ++ "/krux-" ++ version ++ ".zip"

/-- Modelled from the spec: `PemDownloader(destdir).download()` returns the
deterministic path `destdir/selfcustody.pem` (spec §4.3/§6). -/
def pemDownloadResult (destdir : String) : String :=
  destdir ++ "/selfcustody.pem"

/-- The repeated `if not os.path.exists(path): download() else: if
input(...) == "y": download()` pattern of `download_and_verify`
(krux-installer.py lines 208–252).  `dl` is the downloader invocation
(as a trace), `result` the downloader's return value; when the file
exists and the user declines, the existing path itself is used. -/
def fetchStep (env : Env) (path : String) (dl : List Event) (result : String) :
    List Event × String :=
  if !(env.fileExists path) then (dl, result)
  else if env.answer (Prompt.redownload path) == "y" then (dl, result)
  else ([], path)

/-- `download_and_verify` (krux-installer.py lines 203–262): check each of
the four artifacts for local existence, download when absent or when the
user answers `"y"` to the re-download prompt, then verify the sha256 sum
and the signature, raising `RuntimeError` on a failed check.  Returns the
event trace together with the zip path on success. -/
def download_and_verify (env : Env) (destdir version : String) :
    List Event × Except String String :=
  let firmwareName := destdir ++ "/krux-" ++ version ++ ".zip"
  let zipStep :=
    fetchStep env firmwareName [Event.downloadZip version destdir]
      (zipDownloadResult version destdir)
  let shaStep :=
    fetchStep env (firmwareName ++ ".sha256.txt") [Event.downloadSha version destdir]
      (firmwareName ++ ".sha256.txt")
  let sigStep :=
    fetchStep env (firmwareName ++ ".sig") [Event.downloadSig version destdir]
      (firmwareName ++ ".sig")
  let pemStep :=
    fetchStep env (destdir ++ "/selfcustody.pem") [Event.downloadPem destdir]
      (pemDownloadResult destdir)
  let zipd := zipStep.2
  let pemfile := pemStep.2
  let pre := zipStep.1 ++ shaStep.1 ++ sigStep.1 ++ pemStep.1
  if !(env.shaVerify zipd) then
    (pre ++ [Event.verifySha zipd false], Except.error "Invalid sha256sum")
  else if !(env.sigVerify zipd pemfile) then
    (pre ++ [Event.verifySha zipd true, Event.verifySig zipd pemfile false],
     Except.error "Invalid signature")
  else
    (pre ++ [Event.verifySha zipd true, Event.verifySig zipd pemfile true],
     Except.ok zipd)

/-- The beta flash branch (krux-installer.py lines 287–310). -/
def betaFlashBranch (env : Env) (device destdir : String) : List Event :=
  let kbootName := destdir ++ "/kboot.kfpkg"
  let dl : List Event :=
    if !(env.fileExists kbootName) then
      [Event.downloadKbootBeta device destdir]
    else if env.answer (Prompt.redownloadBeta kbootName device) == "y" then
      [Event.downloadKbootBeta device destdir]
    else []
  dl ++ [Event.flash kbootName]

/-- The beta non-flash branch (krux-installer.py lines 311–332). -/
def betaBinBranch (env : Env) (device destdir : String) : List Event :=
  let firmwareName := destdir ++ "/firmware.bin"
  if !(env.fileExists firmwareName) then
    [Event.downloadBinBeta device destdir]
  else if env.answer (Prompt.redownloadBeta firmwareName device) == "y" then
    [Event.downloadBinBeta device destdir]
  else []

/-- The top-level option dispatch of `krux-installer.py` (lines 112–382):
`--version` / `--available-firmwares` / `--available-devices` only print;
`--wipe` runs the wiper; a device without a version raises; a device with
a version runs the channel-selected pipeline. -/
def main (args : Args) (env : Env) : List Event × Except String Unit :=
  if args.version then ([], Except.ok ())
  else if args.availableFirmwares then ([], Except.ok ())
  else if args.availableDevices then ([], Except.ok ())
  else if args.wipeOpt then ([Event.wipe], Except.ok ())
  else if truthy args.firmwareDevice && !truthy args.firmwareVersion then
    ([], Except.error "--firmware-device should be paired with --firmware-version option")
  else if truthy args.firmwareDevice && truthy args.firmwareVersion then
    let device := args.firmwareDevice.getD ""
    let version := args.firmwareVersion.getD ""
    if betaGuard version then
      if args.flash then
        (betaFlashBranch env device args.destdir, Except.ok ())
      else
        (betaBinBranch env device args.destdir, Except.ok ())
    else if officialGuard version then
      if args.flash then
        match download_and_verify env args.destdir version with
        | (t, Except.error e) => (t, Except.error e)
        | (t, Except.ok zipfile) =>
            (t ++ [Event.unzipKboot zipfile device args.destdir,
                   Event.flash (KBOOT_NAME args.destdir version device)],
             Except.ok ())
      else
        match download_and_verify env args.destdir version with
        | (t, Except.error e) => (t, Except.error e)
        | (t, Except.ok zipfile) =>
            (t ++ [Event.unzipFirmware zipfile device args.destdir],
             Except.ok ())
    else ([], Except.ok ())
  else ([], Except.ok ())

/-! ## Trace classifiers -/

/-- Is this event a flash invocation? -/
def isFlashEvent : Event → Bool
  | Event.flash _ => true
  | _ => false

/-- Is this event a sha256 verification? -/
def isShaEvent : Event → Bool
  | Event.verifySha _ _ => true
  | _ => false

/-- Is this event a signature verification? -/
def isSigEvent : Event → Bool
  | Event.verifySig _ _ _ => true
  | _ => false

/-- Is this event an archive extraction? -/
def isUnzipEvent : Event → Bool
  | Event.unzipKboot _ _ _ => true
  | Event.unzipFirmware _ _ _ => true
  | _ => false

/-- Is this event a download invocation (any of the six downloaders)? -/
def isDownloadEvent : Event → Bool
  | Event.downloadZip _ _ => true
  | Event.downloadSha _ _ => true
  | Event.downloadSig _ _ => true
  | Event.downloadPem _ => true
  | Event.downloadKbootBeta _ _ => true
  | Event.downloadBinBeta _ _ => true
  | _ => false

/-! ## Concrete fixtures for witnesses and counterexamples -/

/-- An environment in which no artifact is on disk yet, the user declines
every prompt, and both verifiers succeed. -/
def envAbsent : Env :=
  { fileExists := fun _ => false, answer := fun _ => "n",
    shaVerify := fun _ => true, sigVerify := fun _ _ => true }

/-- An environment in which every artifact is already on disk and the user
answers `"n"` to every prompt. -/
def envDecline : Env :=
  { envAbsent with fileExists := fun _ => true }

/-- Like `envAbsent` but the sha256 check fails. -/
def envBadSha : Env :=
  { envAbsent with shaVerify := fun _ => false }

/-- Like `envAbsent` but the signature check fails. -/
def envBadSig : Env :=
  { envAbsent with sigVerify := fun _ _ => false }

/-- A CLI invocation with no options set (beyond the defaulted destdir). -/
def argsNone : Args :=
  { version := false, availableFirmwares := false, availableDevices := false,
    wipeOpt := false, firmwareDevice := none, firmwareVersion := none,
    destdir := "/tmp", flash := false }

/-- `krux-installer -d amigo -f odudex/krux_binaries -F` -/
def argsBetaFlash : Args :=
  { argsNone with
      firmwareDevice := some "amigo"
      firmwareVersion := some "odudex/krux_binaries"
      flash := true }

/-- `krux-installer -d amigo -f v24.03.0 -F` -/
def argsOfficialFlash : Args :=
  { argsNone with
      firmwareDevice := some "amigo"
      firmwareVersion := some "v24.03.0"
      flash := true }

/-- `krux-installer --wipe` -/
def argsWipe : Args :=
  { argsNone with wipeOpt := true }

/-- `krux-installer -d amigo` (no firmware version) -/
def argsDeviceOnly : Args :=
  { argsNone with firmwareDevice := some "amigo" }

/-! ## Theorems -/

/-- C3: the claim is that `Wiper.wipe()` is only executed after explicit
prior user confirmation.  The code contradicts this: for every
environment — in particular one in which the user would answer "n" to any
prompt — the `--wipe` branch runs the wiper immediately, consulting no
user input at all.  (The spec's §4.7 MUST-confirm requirement is placed on
the orchestrator, which is the code embedded here.) -/
theorem wipe_branch_unconditional (args : Args) (env : Env)
    (h1 : args.version = false) (h2 : args.availableFirmwares = false)
    (h3 : args.availableDevices = false) (h4 : args.wipeOpt = true) :
    main args env = ([Event.wipe], Except.ok ()) := by
  simp [main, h1, h2, h3, h4]

/-- Witness for C3: `krux-installer --wipe` with a user who would decline
every prompt still wipes. -/
theorem wipe_branch_unconditional_witness :
    main argsWipe envDecline = ([Event.wipe], Except.ok ()) :=
  wipe_branch_unconditional argsWipe envDecline rfl rfl rfl rfl

/-- C4: the device lookup is total on the eight supported identifiers with
the vendor-ID class and board codename asserted by the tests, and fails
(with the unsupported-device error) on every identifier outside the set. -/
theorem deviceCatalog_total_spec :
    deviceCatalog "amigo" = Except.ok ("0403", "goE") ∧
    deviceCatalog "amigo_tft" = Except.ok ("0403", "goE") ∧
    deviceCatalog "amigo_ips" = Except.ok ("0403", "goE") ∧
    deviceCatalog "m5stickv" = Except.ok ("0403", "goE") ∧
    deviceCatalog "bit" = Except.ok ("0403", "goE") ∧
    deviceCatalog "cube" = Except.ok ("0403", "goE") ∧
    deviceCatalog "dock" = Except.ok ("7523", "dan") ∧
    deviceCatalog "yahboom" = Except.ok ("7523", "goE") ∧
    (∀ d : String, d ∉ supportedDevices →
      deviceCatalog d = Except.error ("Device not implemented: " ++ d)) := by
  refine ⟨rfl, rfl, rfl, rfl, rfl, rfl, rfl, rfl, ?_⟩
  intro d hd
  simp only [supportedDevices, List.mem_cons, List.not_mem_nil, or_false, not_or] at hd
  obtain ⟨h1, h2, h3, h4, h5, h6, h7, h8⟩ := hd
  simp [deviceCatalog, h1, h2, h3, h4, h5, h6, h7, h8]

/-- Witness for C4: the identifier `mock` (the one the tests use) is
rejected. -/
theorem deviceCatalog_total_spec_witness :
    "mock" ∉ supportedDevices ∧
    deviceCatalog "mock" = Except.error ("Device not implemented: " ++ "mock") :=
  ⟨by decide, deviceCatalog_total_spec.2.2.2.2.2.2.2.2 "mock" (by decide)⟩

/-- C5 counterexample: at destdir `/tmp`, version `v24.03.0`, device
`amigo`, the orchestrator's constructed flash-target paths are NOT the
single-separator paths the claim states (the third joined component
carries its own leading slash, producing `//`). -/
theorem flash_path_not_single_separator :
    KBOOT_NAME "/tmp" "v24.03.0" "amigo" ≠
      "/tmp/krux-v24.03.0/maixpy_amigo/kboot.kfpkg" ∧
    FIRMWARE_NAME "/tmp" "v24.03.0" "amigo" ≠
      "/tmp/krux-v24.03.0/maixpy_amigo/firmware.bin" := by
  decide

/-- C5 amended: for every destdir, version and device, the constructed
flash-target paths are
`<destdir>/krux-<version>//maixpy_<device>/kboot.kfpkg` (flash case) and
`<destdir>/krux-<version>//maixpy_<device>/firmware.bin` (non-flash case)
— the archive layout joined to the destination directory, but with a
doubled separator before the `maixpy_<device>` segment. -/
theorem flash_path_double_separator (destdir version device : String) :
    KBOOT_NAME destdir version device =
      destdir ++ "/krux-" ++ version ++ "//maixpy_" ++ device ++ "/kboot.kfpkg" ∧
    FIRMWARE_NAME destdir version device =
      destdir ++ "/krux-" ++ version ++ "//maixpy_" ++ device ++ "/firmware.bin" := by
  constructor
  · apply String.ext
    simp only [KBOOT_NAME, String.intercalate, String.intercalate.go]
    show (destdir ++ "/" ++ ("krux-" ++ version) ++ "/" ++ ("/maixpy_" ++ device)
        ++ "/" ++ "kboot.kfpkg").data = _
    simp [List.append_assoc]
  · apply String.ext
    simp only [FIRMWARE_NAME, String.intercalate, String.intercalate.go]
    show (destdir ++ "/" ++ ("krux-" ++ version) ++ "/" ++ ("/maixpy_" ++ device)
        ++ "/" ++ "firmware.bin").data = _
    simp [List.append_assoc]

/-- C8: the `--available-devices` branch returns the underlying table with
exactly its first element skipped — for any table, the slice
`[1:len]` is the tail (nothing else added, removed or reordered) — and on
the modelled `VALID_DEVICES` table this skips the reserved `unset`
sentinel and yields exactly the eight supported devices in order. -/
theorem available_devices_skips_sentinel :
    (∀ (x : String) (xs : List String), availableDevicesBranch (x :: xs) = xs) ∧
    VALID_DEVICES.head? = some "unset" ∧
    availableDevicesBranch VALID_DEVICES = supportedDevices := by
  refine ⟨?_, rfl, by decide⟩
  intro x xs
  simp [availableDevicesBranch, pySlice]

/-- C9: a firmware device without a firmware version makes the
orchestrator raise `RuntimeError` with the pairing message, with an empty
event trace — no download, verification, extraction, flash or wipe has
happened. -/
theorem device_without_version_raises (args : Args) (env : Env)
    (h1 : args.version = false) (h2 : args.availableFirmwares = false)
    (h3 : args.availableDevices = false) (h4 : args.wipeOpt = false)
    (h5 : truthy args.firmwareDevice = true)
    (h6 : truthy args.firmwareVersion = false) :
    main args env =
      ([], Except.error "--firmware-device should be paired with --firmware-version option") := by
  simp [main, h1, h2, h3, h4, h5, h6]

/-- Witness for C9: `krux-installer -d amigo` raises the pairing error
with no side effects. -/
theorem device_without_version_raises_witness :
    main argsDeviceOnly envAbsent =
      ([], Except.error "--firmware-device should be paired with --firmware-version option") :=
  device_without_version_raises argsDeviceOnly envAbsent rfl rfl rfl rfl rfl rfl

/-- C10: the firmware setter stores the path exactly when the file exists,
raises `ValueError` with the message the tests assert when it does not,
and consequently a successfully-updated flasher always holds an existing
path. -/
theorem setFirmware_checks_existence (fe : String → Bool) (f : BaseFlasher) (p : String) :
    (fe p = false → setFirmware fe f p = Except.error ("File do not exist: " ++ p)) ∧
    (fe p = true → setFirmware fe f p = Except.ok { f with firmware := some p }) ∧
    (∀ g : BaseFlasher, setFirmware fe f p = Except.ok g →
      g.firmware = some p ∧ fe p = true) := by
  by_cases h : fe p <;> simp [setFirmware, h]

/-- Witness for C10: with `os.path.exists` mocked false (as in
`test_fail_set_firmware`), assigning `mock/test/kboot.kfpkg` fails with
the asserted message. -/
theorem setFirmware_checks_existence_witness :
    setFirmware (fun _ => false) { firmware := none } "mock/test/kboot.kfpkg" =
      Except.error ("File do not exist: " ++ "mock/test/kboot.kfpkg") :=
  (setFirmware_checks_existence (fun _ => false) { firmware := none }
    "mock/test/kboot.kfpkg").1 rfl

/-! ### Release-channel characterization (C6) -/

/-- `occursIn` is substring occurrence: it holds exactly when `p` is a
contiguous infix of `l`. -/
theorem occursIn_iff (p l : List Char) : occursIn p l = true ↔ p <:+: l := by
  constructor
  · intro h
    simp only [occursIn, List.any_eq_true] at h
    obtain ⟨t, ht, hp⟩ := h
    rw [List.mem_tails] at ht
    rw [List.isPrefixOf_iff_prefix] at hp
    exact hp.isInfix.trans ht.isInfix
  · intro h
    obtain ⟨s, t, hst⟩ := h
    simp only [occursIn, List.any_eq_true]
    refine ⟨p ++ t, ?_, ?_⟩
    · rw [List.mem_tails]
      exact ⟨s, by rw [← List.append_assoc]; exact hst⟩
    · rw [List.isPrefixOf_iff_prefix]
      exact ⟨t, rfl⟩

/-- `officialAt` matches exactly the heads of shape
`v 2 <digit> . <digits+> . <digit> ...` — the anchored reading of the
official-version regex `v2\d\.\d+\.\d+`. -/
theorem officialAt_iff (l : List Char) :
    officialAt l = true ↔
      ∃ (d1 : Char) (ds : List Char) (d2 : Char) (rest : List Char),
        l = 'v' :: '2' :: d1 :: '.' :: (ds ++ '.' :: d2 :: rest) ∧
        d1.isDigit = true ∧ ds ≠ [] ∧ (∀ c ∈ ds, c.isDigit = true) ∧
        d2.isDigit = true := by
  constructor
  · intro h
    match l, h with
    | c1 :: c2 :: c3 :: c4 :: rest, h =>
      simp only [officialAt, Bool.and_eq_true, beq_iff_eq] at h
      obtain ⟨⟨⟨⟨hv, h2⟩, hd⟩, hdot⟩, hrest⟩ := h
      rw [List.span_eq_take_drop] at hrest
      rcases hdw : rest.dropWhile (fun d => d.isDigit) with _ | ⟨c5, tail5⟩
      · rw [hdw] at hrest; simp at hrest
      · rcases tail5 with _ | ⟨c6, tail6⟩
        · rw [hdw] at hrest; simp at hrest
        · rw [hdw] at hrest
          simp only [Bool.and_eq_true, beq_iff_eq, Bool.not_eq_true',
            List.isEmpty_eq_false] at hrest
          obtain ⟨hne, hc5, hc6⟩ := hrest
          subst hv h2 hdot hc5
          refine ⟨c3, rest.takeWhile (fun d => d.isDigit), c6, tail6, ?_, hd, hne, ?_, hc6⟩
          · have := List.takeWhile_append_dropWhile (p := fun d => d.isDigit) (l := rest)
            rw [hdw] at this
            rw [this]
          · intro c hc
            exact List.mem_takeWhile_imp hc
  · rintro ⟨d1, ds, d2, rest, rfl, h1, h2, h3, h4⟩
    have hdotdigit : ('.' : Char).isDigit = false := rfl
    simp only [officialAt, List.span_eq_take_drop,
      List.takeWhile_append_of_pos h3, List.dropWhile_append_of_pos h3,
      List.takeWhile_cons, hdotdigit, List.isEmpty_eq_false]
    simp [h1, h2, h4]

/-- `officialGuard` holds exactly when the official-version pattern
`v2\d\.\d+\.\d+` matches somewhere in the string. -/
theorem officialGuard_iff (v : String) :
    officialGuard v = true ↔
      ∃ (pre : List Char) (d1 : Char) (ds : List Char) (d2 : Char) (rest : List Char),
        v.data = pre ++ 'v' :: '2' :: d1 :: '.' :: (ds ++ '.' :: d2 :: rest) ∧
        d1.isDigit = true ∧ ds ≠ [] ∧ (∀ c ∈ ds, c.isDigit = true) ∧
        d2.isDigit = true := by
  simp only [officialGuard, List.any_eq_true]
  constructor
  · rintro ⟨t, ht, hat⟩
    rw [List.mem_tails] at ht
    obtain ⟨pre, hpre⟩ := ht
    rw [officialAt_iff] at hat
    obtain ⟨d1, ds, d2, rest, rfl, h1, h2, h3, h4⟩ := hat
    exact ⟨pre, d1, ds, d2, rest, hpre.symm, h1, h2, h3, h4⟩
  · rintro ⟨pre, d1, ds, d2, rest, hv, h1, h2, h3, h4⟩
    refine ⟨'v' :: '2' :: d1 :: '.' :: (ds ++ '.' :: d2 :: rest), ?_, ?_⟩
    · rw [List.mem_tails]
      exact ⟨pre, hv.symm⟩
    · rw [officialAt_iff]
      exact ⟨d1, ds, d2, rest, rfl, h1, h2, h3, h4⟩

/-- C6 counterexample: the version string
`odudex/krux_binaries v24.03.0` matches the official pattern, yet the
orchestrator selects the beta artifact set, because the beta marker is
tested first — refuting "selects the official set exactly when it matches
the pattern". -/
theorem beta_marker_overrides_official :
    officialGuard "odudex/krux_binaries v24.03.0" = true ∧
    selectChannel "odudex/krux_binaries v24.03.0" = Channel.beta ∧
    selectChannel "odudex/krux_binaries v24.03.0" ≠ Channel.official := by
  decide

/-- helper: channel selection in terms of the two boolean guards, with the
beta test taking precedence. -/
theorem selectChannel_eq_guards (v : String) :
    (selectChannel v = Channel.beta ↔ betaGuard v = true) ∧
    (selectChannel v = Channel.official ↔
      (officialGuard v = true ∧ betaGuard v = false)) ∧
    (selectChannel v = Channel.neither ↔
      (betaGuard v = false ∧ officialGuard v = false)) := by
  cases h1 : betaGuard v <;> cases h2 : officialGuard v <;>
    simp [selectChannel, h1, h2]

/-- C6 amended: a version string selects the beta artifact set exactly
when it contains the beta marker `odudex/krux_binaries`; it selects the
official signed-zip set exactly when the pattern `v2\d\.\d+\.\d+`
matches somewhere in it AND it does not contain the beta marker (the
beta test takes precedence); any other string selects neither. -/
theorem selectChannel_characterization (v : String) :
    (selectChannel v = Channel.beta ↔ "odudex/krux_binaries".data <:+: v.data) ∧
    (selectChannel v = Channel.official ↔
      ((∃ (pre : List Char) (d1 : Char) (ds : List Char) (d2 : Char) (rest : List Char),
          v.data = pre ++ 'v' :: '2' :: d1 :: '.' :: (ds ++ '.' :: d2 :: rest) ∧
          d1.isDigit = true ∧ ds ≠ [] ∧ (∀ c ∈ ds, c.isDigit = true) ∧
          d2.isDigit = true) ∧
        ¬ "odudex/krux_binaries".data <:+: v.data)) ∧
    (selectChannel v = Channel.neither ↔
      (¬ "odudex/krux_binaries".data <:+: v.data ∧ officialGuard v = false)) := by
  have hsel := selectChannel_eq_guards v
  have hb : betaGuard v = true ↔ "odudex/krux_binaries".data <:+: v.data :=
    occursIn_iff _ _
  have hb' : betaGuard v = false ↔ ¬ "odudex/krux_binaries".data <:+: v.data := by
    rw [← hb]
    simp
  have ho := officialGuard_iff v
  refine ⟨hsel.1.trans hb, hsel.2.1.trans ?_, hsel.2.2.trans ?_⟩
  · constructor
    · rintro ⟨ho2, hb2⟩
      exact ⟨ho.mp ho2, hb'.mp hb2⟩
    · rintro ⟨hE, hni⟩
      exact ⟨ho.mpr hE, hb'.mpr hni⟩
  · constructor
    · rintro ⟨hb2, ho2⟩
      exact ⟨hb'.mp hb2, ho2⟩
    · rintro ⟨hni, ho2⟩
      exact ⟨hb'.mpr hni, ho2⟩

/-! ### Download, verification and flashing pipeline (C1, C2, C7) -/

/-- When the downloader's return value is the checked path itself, the
path a fetch step binds is that path in every branch. -/
theorem fetchStep_snd (env : Env) (path : String) (dl : List Event) (r : String)
    (h : r = path) : (fetchStep env path dl r).2 = path := by
  subst h
  unfold fetchStep
  split
  · rfl
  · split <;> rfl

/-- Events produced by a fetch step all come from its downloader call. -/
theorem fetchStep_fst_subset (env : Env) (path : String) (dl : List Event)
    (r : String) : ∀ e ∈ (fetchStep env path dl r).1, e ∈ dl := by
  intro e he
  unfold fetchStep at he
  split at he
  · exact he
  · split at he
    · exact he
    · cases he

/-- A fetch step emits its downloader call exactly when the file is
absent or the user answers `"y"` to the re-download prompt. -/
theorem mem_fetchStep_fst (env : Env) (path : String) (dl : List Event)
    (r : String) (e : Event) (he : e ∈ dl) :
    (e ∈ (fetchStep env path dl r).1 ↔
      (env.fileExists path = false ∨
       env.answer (Prompt.redownload path) = "y")) := by
  unfold fetchStep
  by_cases h1 : env.fileExists path <;>
    by_cases h2 : env.answer (Prompt.redownload path) = "y" <;>
      simp [h1, h2, he]

/-- Structural form of `download_and_verify`: its trace is the four fetch
steps followed by a verification tail, and its outcome is decided by the
two verifier oracles on the zip path and the pem path. -/
theorem download_and_verify_cases (env : Env) (destdir version : String) :
    ∃ pre : List Event,
      (∀ e ∈ pre, isDownloadEvent e = true) ∧
      ((env.shaVerify (destdir ++ "/krux-" ++ version ++ ".zip") = false ∧
          download_and_verify env destdir version =
            (pre ++ [Event.verifySha (destdir ++ "/krux-" ++ version ++ ".zip") false],
             Except.error "Invalid sha256sum")) ∨
       (env.shaVerify (destdir ++ "/krux-" ++ version ++ ".zip") = true ∧
          env.sigVerify (destdir ++ "/krux-" ++ version ++ ".zip")
            (destdir ++ "/selfcustody.pem") = false ∧
          download_and_verify env destdir version =
            (pre ++ [Event.verifySha (destdir ++ "/krux-" ++ version ++ ".zip") true,
                     Event.verifySig (destdir ++ "/krux-" ++ version ++ ".zip")
                       (destdir ++ "/selfcustody.pem") false],
             Except.error "Invalid signature")) ∨
       (env.shaVerify (destdir ++ "/krux-" ++ version ++ ".zip") = true ∧
          env.sigVerify (destdir ++ "/krux-" ++ version ++ ".zip")
            (destdir ++ "/selfcustody.pem") = true ∧
          download_and_verify env destdir version =
            (pre ++ [Event.verifySha (destdir ++ "/krux-" ++ version ++ ".zip") true,
                     Event.verifySig (destdir ++ "/krux-" ++ version ++ ".zip")
                       (destdir ++ "/selfcustody.pem") true],
             Except.ok (destdir ++ "/krux-" ++ version ++ ".zip")))) := by
  have hz : (fetchStep env (destdir ++ "/krux-" ++ version ++ ".zip")
      [Event.downloadZip version destdir] (zipDownloadResult version destdir)).2
      = destdir ++ "/krux-" ++ version ++ ".zip" := fetchStep_snd _ _ _ _ rfl
  have hp : (fetchStep env (destdir ++ "/selfcustody.pem")
      [Event.downloadPem destdir] (pemDownloadResult destdir)).2
      = destdir ++ "/selfcustody.pem" := fetchStep_snd _ _ _ _ rfl
  refine ⟨(fetchStep env (destdir ++ "/krux-" ++ version ++ ".zip")
        [Event.downloadZip version destdir] (zipDownloadResult version destdir)).1 ++
      (fetchStep env (destdir ++ "/krux-" ++ version ++ ".zip" ++ ".sha256.txt")
        [Event.downloadSha version destdir]
        (destdir ++ "/krux-" ++ version ++ ".zip" ++ ".sha256.txt")).1 ++
      (fetchStep env (destdir ++ "/krux-" ++ version ++ ".zip" ++ ".sig")
        [Event.downloadSig version destdir]
        (destdir ++ "/krux-" ++ version ++ ".zip" ++ ".sig")).1 ++
      (fetchStep env (destdir ++ "/selfcustody.pem")
        [Event.downloadPem destdir] (pemDownloadResult destdir)).1, ?_, ?_⟩
  · intro e he
    simp only [List.mem_append] at he
    rcases he with ((h | h) | h) | h <;>
      [have := fetchStep_fst_subset _ _ _ _ _ h;
       have := fetchStep_fst_subset _ _ _ _ _ h;
       have := fetchStep_fst_subset _ _ _ _ _ h;
       have := fetchStep_fst_subset _ _ _ _ _ h] <;>
      simp only [List.mem_singleton] at this <;>
      subst this <;> rfl
  · cases hsha : env.shaVerify (destdir ++ "/krux-" ++ version ++ ".zip") with
    | false =>
        left
        refine ⟨rfl, ?_⟩
        simp only [download_and_verify, hz, hp, hsha]
        simp [List.append_assoc]
    | true =>
        cases hsig : env.sigVerify (destdir ++ "/krux-" ++ version ++ ".zip")
            (destdir ++ "/selfcustody.pem") with
        | false =>
            right; left
            refine ⟨rfl, rfl, ?_⟩
            simp only [download_and_verify, hz, hp, hsha, hsig]
            simp [List.append_assoc]
        | true =>
            right; right
            refine ⟨rfl, rfl, ?_⟩
            simp only [download_and_verify, hz, hp, hsha, hsig]
            simp [List.append_assoc]

/-- The trace of `download_and_verify` is the four fetch steps in order,
followed by a tail consisting only of verification events. -/
theorem download_and_verify_fst (env : Env) (destdir version : String) :
    ∃ tail : List Event,
      (∀ e ∈ tail, isShaEvent e = true ∨ isSigEvent e = true) ∧
      (download_and_verify env destdir version).1 =
        (fetchStep env (destdir ++ "/krux-" ++ version ++ ".zip")
          [Event.downloadZip version destdir] (zipDownloadResult version destdir)).1 ++
        (fetchStep env (destdir ++ "/krux-" ++ version ++ ".zip" ++ ".sha256.txt")
          [Event.downloadSha version destdir]
          (destdir ++ "/krux-" ++ version ++ ".zip" ++ ".sha256.txt")).1 ++
        (fetchStep env (destdir ++ "/krux-" ++ version ++ ".zip" ++ ".sig")
          [Event.downloadSig version destdir]
          (destdir ++ "/krux-" ++ version ++ ".zip" ++ ".sig")).1 ++
        (fetchStep env (destdir ++ "/selfcustody.pem")
          [Event.downloadPem destdir] (pemDownloadResult destdir)).1 ++ tail := by
  have hz : (fetchStep env (destdir ++ "/krux-" ++ version ++ ".zip")
      [Event.downloadZip version destdir] (zipDownloadResult version destdir)).2
      = destdir ++ "/krux-" ++ version ++ ".zip" := fetchStep_snd _ _ _ _ rfl
  have hp : (fetchStep env (destdir ++ "/selfcustody.pem")
      [Event.downloadPem destdir] (pemDownloadResult destdir)).2
      = destdir ++ "/selfcustody.pem" := fetchStep_snd _ _ _ _ rfl
  cases hsha : env.shaVerify (destdir ++ "/krux-" ++ version ++ ".zip") with
  | false =>
      refine ⟨[Event.verifySha (destdir ++ "/krux-" ++ version ++ ".zip") false],
        by intro e he; simp only [List.mem_singleton] at he; subst he; left; rfl, ?_⟩
      simp only [download_and_verify, hz, hp, hsha]
      simp [List.append_assoc]
  | true =>
      cases hsig : env.sigVerify (destdir ++ "/krux-" ++ version ++ ".zip")
          (destdir ++ "/selfcustody.pem") with
      | false =>
          refine ⟨[Event.verifySha (destdir ++ "/krux-" ++ version ++ ".zip") true,
            Event.verifySig (destdir ++ "/krux-" ++ version ++ ".zip")
              (destdir ++ "/selfcustody.pem") false], ?_, ?_⟩
          · intro e he
            simp only [List.mem_cons, List.mem_singleton] at he
            rcases he with rfl | rfl | h
            · left; rfl
            · right; rfl
            · cases h
          · simp only [download_and_verify, hz, hp, hsha, hsig]
            simp [List.append_assoc]
      | true =>
          refine ⟨[Event.verifySha (destdir ++ "/krux-" ++ version ++ ".zip") true,
            Event.verifySig (destdir ++ "/krux-" ++ version ++ ".zip")
              (destdir ++ "/selfcustody.pem") true], ?_, ?_⟩
          · intro e he
            simp only [List.mem_cons, List.mem_singleton] at he
            rcases he with rfl | rfl | h
            · left; rfl
            · right; rfl
            · cases h
          · simp only [download_and_verify, hz, hp, hsha, hsig]
            simp [List.append_assoc]

/-- C7: each artifact's downloader is invoked exactly when the artifact is
absent at its deterministic path or the user answers "y" to the
re-download prompt; and on success the zip actually consumed downstream is
the one at that deterministic path (so a declined re-download uses the
existing file unchanged). -/
theorem download_invocation_iff (env : Env) (destdir version device : String) :
    (Event.downloadZip version destdir ∈ (download_and_verify env destdir version).1 ↔
      (env.fileExists (destdir ++ "/krux-" ++ version ++ ".zip") = false ∨
       env.answer (Prompt.redownload (destdir ++ "/krux-" ++ version ++ ".zip")) = "y")) ∧
    (Event.downloadSha version destdir ∈ (download_and_verify env destdir version).1 ↔
      (env.fileExists (destdir ++ "/krux-" ++ version ++ ".zip" ++ ".sha256.txt") = false ∨
       env.answer (Prompt.redownload (destdir ++ "/krux-" ++ version ++ ".zip" ++ ".sha256.txt")) = "y")) ∧
    (Event.downloadSig version destdir ∈ (download_and_verify env destdir version).1 ↔
      (env.fileExists (destdir ++ "/krux-" ++ version ++ ".zip" ++ ".sig") = false ∨
       env.answer (Prompt.redownload (destdir ++ "/krux-" ++ version ++ ".zip" ++ ".sig")) = "y")) ∧
    (Event.downloadPem destdir ∈ (download_and_verify env destdir version).1 ↔
      (env.fileExists (destdir ++ "/selfcustody.pem") = false ∨
       env.answer (Prompt.redownload (destdir ++ "/selfcustody.pem")) = "y")) ∧
    (∀ z : String, (download_and_verify env destdir version).2 = Except.ok z →
       z = destdir ++ "/krux-" ++ version ++ ".zip") ∧
    (Event.downloadKbootBeta device destdir ∈ betaFlashBranch env device destdir ↔
      (env.fileExists (destdir ++ "/kboot.kfpkg") = false ∨
       env.answer (Prompt.redownloadBeta (destdir ++ "/kboot.kfpkg") device) = "y")) ∧
    (Event.downloadBinBeta device destdir ∈ betaBinBranch env device destdir ↔
      (env.fileExists (destdir ++ "/firmware.bin") = false ∨
       env.answer (Prompt.redownloadBeta (destdir ++ "/firmware.bin") device) = "y")) := by
  obtain ⟨tail, htail, htr⟩ := download_and_verify_fst env destdir version
  have hnotail : ∀ e ∈ tail, isDownloadEvent e = false := by
    intro e he
    rcases htail e he with h | h <;> cases e <;> simp_all [isShaEvent, isSigEvent, isDownloadEvent]
  refine ⟨?_, ?_, ?_, ?_, ?_, ?_, ?_⟩
  · rw [htr]
    simp only [List.mem_append]
    constructor
    · rintro ((((h | h) | h) | h) | h)
      · exact (mem_fetchStep_fst _ _ _ _ _ (by simp)).mp h
      · have := fetchStep_fst_subset _ _ _ _ _ h; simp at this
      · have := fetchStep_fst_subset _ _ _ _ _ h; simp at this
      · have := fetchStep_fst_subset _ _ _ _ _ h; simp at this
      · have := hnotail _ h; simp [isDownloadEvent] at this
    · intro h
      exact Or.inl (Or.inl (Or.inl (Or.inl
        ((mem_fetchStep_fst _ _ _ _ _ (by simp)).mpr h))))
  · rw [htr]
    simp only [List.mem_append]
    constructor
    · rintro ((((h | h) | h) | h) | h)
      · have := fetchStep_fst_subset _ _ _ _ _ h; simp at this
      · exact (mem_fetchStep_fst _ _ _ _ _ (by simp)).mp h
      · have := fetchStep_fst_subset _ _ _ _ _ h; simp at this
      · have := fetchStep_fst_subset _ _ _ _ _ h; simp at this
      · have := hnotail _ h; simp [isDownloadEvent] at this
    · intro h
      exact Or.inl (Or.inl (Or.inl (Or.inr
        ((mem_fetchStep_fst _ _ _ _ _ (by simp)).mpr h))))
  · rw [htr]
    simp only [List.mem_append]
    constructor
    · rintro ((((h | h) | h) | h) | h)
      · have := fetchStep_fst_subset _ _ _ _ _ h; simp at this
      · have := fetchStep_fst_subset _ _ _ _ _ h; simp at this
      · exact (mem_fetchStep_fst _ _ _ _ _ (by simp)).mp h
      · have := fetchStep_fst_subset _ _ _ _ _ h; simp at this
      · have := hnotail _ h; simp [isDownloadEvent] at this
    · intro h
      exact Or.inl (Or.inl (Or.inr
        ((mem_fetchStep_fst _ _ _ _ _ (by simp)).mpr h)))
  · rw [htr]
    simp only [List.mem_append]
    constructor
    · rintro ((((h | h) | h) | h) | h)
      · have := fetchStep_fst_subset _ _ _ _ _ h; simp at this
      · have := fetchStep_fst_subset _ _ _ _ _ h; simp at this
      · have := fetchStep_fst_subset _ _ _ _ _ h; simp at this
      · exact (mem_fetchStep_fst _ _ _ _ _ (by simp)).mp h
      · have := hnotail _ h; simp [isDownloadEvent] at this
    · intro h
      exact Or.inl (Or.inr ((mem_fetchStep_fst _ _ _ _ _ (by simp)).mpr h))
  · intro z hz
    obtain ⟨pre, _, hc | hc | hc⟩ := download_and_verify_cases env destdir version
    · rw [hc.2] at hz; cases hz
    · rw [hc.2.2] at hz; cases hz
    · rw [hc.2.2] at hz
      injection hz with h
      exact h.symm
  · unfold betaFlashBranch
    by_cases h1 : env.fileExists (destdir ++ "/kboot.kfpkg") <;>
      by_cases h2 : env.answer (Prompt.redownloadBeta (destdir ++ "/kboot.kfpkg") device) = "y" <;>
        simp [h1, h2]
  · unfold betaBinBranch
    by_cases h1 : env.fileExists (destdir ++ "/firmware.bin") <;>
      by_cases h2 : env.answer (Prompt.redownloadBeta (destdir ++ "/firmware.bin") device) = "y" <;>
        simp [h1, h2]

/-- Witness for C7: with no artifact on disk, the zip downloader is
invoked; with every artifact on disk and a user declining every prompt,
it is not. -/
theorem download_invocation_iff_witness :
    Event.downloadZip "v24.03.0" "/tmp" ∈ (download_and_verify envAbsent "/tmp" "v24.03.0").1 ∧
    Event.downloadZip "v24.03.0" "/tmp" ∉ (download_and_verify envDecline "/tmp" "v24.03.0").1 :=
  ⟨(download_invocation_iff envAbsent "/tmp" "v24.03.0" "amigo").1.mpr (Or.inl rfl),
   fun h => by
     have := (download_invocation_iff envDecline "/tmp" "v24.03.0" "amigo").1.mp h
     rcases this with h | h <;> simp [envDecline, envAbsent] at h⟩

/-- With no earlier CLI branch taken, a truthy device and version, and the
version selecting the official channel, `main` runs
`download_and_verify` and then (on success) extraction and, in the flash
case, flashing. -/
theorem main_official (args : Args) (env : Env) (dev ver : String)
    (h1 : args.version = false) (h2 : args.availableFirmwares = false)
    (h3 : args.availableDevices = false) (h4 : args.wipeOpt = false)
    (hd : args.firmwareDevice = some dev) (hd0 : dev ≠ "")
    (hv : args.firmwareVersion = some ver) (hv0 : ver ≠ "")
    (hb : betaGuard ver = false) (ho : officialGuard ver = true) :
    main args env =
      (match download_and_verify env args.destdir ver with
       | (t, Except.error e) => (t, Except.error e)
       | (t, Except.ok zipfile) =>
           if args.flash then
             (t ++ [Event.unzipKboot zipfile dev args.destdir,
                    Event.flash (KBOOT_NAME args.destdir ver dev)], Except.ok ())
           else
             (t ++ [Event.unzipFirmware zipfile dev args.destdir], Except.ok ())) := by
  cases hf : args.flash <;>
    rcases hdav : download_and_verify env args.destdir ver with ⟨t, r⟩ <;>
      cases r <;>
        simp [main, h1, h2, h3, h4, hd, hv, truthy, hd0, hv0, hb, ho, hf, hdav]

/-- C2: in the official channel the verifiers' outcomes are booleans the
orchestrator turns into fatal errors: a false sha256 check makes the run
end with `RuntimeError("Invalid sha256sum")` before any signature check,
extraction or flash; a true sha256 check followed by a false signature
check makes it end with `RuntimeError("Invalid signature")` before any
extraction or flash. -/
theorem verify_failure_halts (args : Args) (env : Env) (dev ver : String)
    (h1 : args.version = false) (h2 : args.availableFirmwares = false)
    (h3 : args.availableDevices = false) (h4 : args.wipeOpt = false)
    (hd : args.firmwareDevice = some dev) (hd0 : dev ≠ "")
    (hv : args.firmwareVersion = some ver) (hv0 : ver ≠ "")
    (hb : betaGuard ver = false) (ho : officialGuard ver = true) :
    (env.shaVerify (args.destdir ++ "/krux-" ++ ver ++ ".zip") = false →
       (main args env).2 = Except.error "Invalid sha256sum" ∧
       (main args env).1.any isSigEvent = false ∧
       (main args env).1.any isUnzipEvent = false ∧
       (main args env).1.any isFlashEvent = false) ∧
    (env.shaVerify (args.destdir ++ "/krux-" ++ ver ++ ".zip") = true →
     env.sigVerify (args.destdir ++ "/krux-" ++ ver ++ ".zip")
         (args.destdir ++ "/selfcustody.pem") = false →
       (main args env).2 = Except.error "Invalid signature" ∧
       (main args env).1.any isUnzipEvent = false ∧
       (main args env).1.any isFlashEvent = false) := by
  have hm := main_official args env dev ver h1 h2 h3 h4 hd hd0 hv hv0 hb ho
  obtain ⟨pre, hpre, hc⟩ := download_and_verify_cases env args.destdir ver
  constructor
  · intro hsha
    rcases hc with ⟨hs, he⟩ | ⟨hs, _, _⟩ | ⟨hs, _, _⟩
    · have hmm : main args env =
          (pre ++ [Event.verifySha (args.destdir ++ "/krux-" ++ ver ++ ".zip") false],
           Except.error "Invalid sha256sum") := by
        rw [hm, he]
      rw [hmm]
      refine ⟨rfl, ?_, ?_, ?_⟩ <;>
        · rw [List.any_eq_false]
          intro e he'
          rcases List.mem_append.mp he' with h | h
          · have := hpre e h
            cases e <;>
              simp_all [isDownloadEvent, isSigEvent, isUnzipEvent, isFlashEvent]
          · simp only [List.mem_singleton] at h
            subst h
            simp [isSigEvent, isUnzipEvent, isFlashEvent]
    · rw [hsha] at hs; cases hs
    · rw [hsha] at hs; cases hs
  · intro hsha hsig
    rcases hc with ⟨hs, _⟩ | ⟨hs, hg, he⟩ | ⟨hs, hg, _⟩
    · rw [hsha] at hs; cases hs
    · have hmm : main args env =
          (pre ++ [Event.verifySha (args.destdir ++ "/krux-" ++ ver ++ ".zip") true,
                   Event.verifySig (args.destdir ++ "/krux-" ++ ver ++ ".zip")
                     (args.destdir ++ "/selfcustody.pem") false],
           Except.error "Invalid signature") := by
        rw [hm, he]
      rw [hmm]
      refine ⟨rfl, ?_, ?_⟩ <;>
        · rw [List.any_eq_false]
          intro e he'
          rcases List.mem_append.mp he' with h | h
          · have := hpre e h
            cases e <;>
              simp_all [isDownloadEvent, isUnzipEvent, isFlashEvent]
          · simp only [List.mem_cons, List.mem_singleton] at h
            rcases h with rfl | rfl | h
            · simp [isUnzipEvent, isFlashEvent]
            · simp [isUnzipEvent, isFlashEvent]
            · cases h
    · rw [hsig] at hg; cases hg

/-- Witness for C2: a failing sha256 check on `krux-installer -d amigo -f
v24.03.0 -F` yields the sha error with no signature check, extraction or
flash; a failing signature check yields the signature error with no
extraction or flash. -/
theorem verify_failure_halts_witness :
    ((main argsOfficialFlash envBadSha).2 = Except.error "Invalid sha256sum" ∧
     (main argsOfficialFlash envBadSha).1.any isSigEvent = false ∧
     (main argsOfficialFlash envBadSha).1.any isUnzipEvent = false ∧
     (main argsOfficialFlash envBadSha).1.any isFlashEvent = false) ∧
    ((main argsOfficialFlash envBadSig).2 = Except.error "Invalid signature" ∧
     (main argsOfficialFlash envBadSig).1.any isUnzipEvent = false ∧
     (main argsOfficialFlash envBadSig).1.any isFlashEvent = false) :=
  ⟨(verify_failure_halts argsOfficialFlash envBadSha "amigo" "v24.03.0"
      rfl rfl rfl rfl rfl (by decide) rfl (by decide) (by decide) (by decide)).1 rfl,
   (verify_failure_halts argsOfficialFlash envBadSig "amigo" "v24.03.0"
      rfl rfl rfl rfl rfl (by decide) rfl (by decide) (by decide) (by decide)).2 rfl rfl⟩

/-- C1 counterexample: on the beta channel with `--flash`
(`krux-installer -d amigo -f odudex/krux_binaries -F`, no file cached),
the flasher is invoked although no integrity check and no authenticity
check occurred at all in the run. -/
theorem beta_flash_without_verification :
    Event.flash "/tmp/kboot.kfpkg" ∈ (main argsBetaFlash envAbsent).1 ∧
    (main argsBetaFlash envAbsent).1.any isShaEvent = false ∧
    (main argsBetaFlash envAbsent).1.any isSigEvent = false := by
  decide

/-- C1 amended: in the official channel (version matching
`v2\d\.\d+\.\d+` and not containing the beta marker), whenever the
flasher is invoked, both the sha256 check and the signature check have
earlier returned true for the downloaded zip archive, and the flashed
`kboot.kfpkg` was extracted from exactly that verified zip.  (The beta
channel flashes without any verification, by design.) -/
theorem official_flash_gated (args : Args) (env : Env) (dev ver : String)
    (h1 : args.version = false) (h2 : args.availableFirmwares = false)
    (h3 : args.availableDevices = false) (h4 : args.wipeOpt = false)
    (hd : args.firmwareDevice = some dev) (hd0 : dev ≠ "")
    (hv : args.firmwareVersion = some ver) (hv0 : ver ≠ "")
    (hb : betaGuard ver = false) (ho : officialGuard ver = true) :
    ∀ fw : String, Event.flash fw ∈ (main args env).1 →
      fw = KBOOT_NAME args.destdir ver dev ∧
      ∃ l1 l2, (main args env).1 = l1 ++ Event.flash fw :: l2 ∧
        Event.verifySha (args.destdir ++ "/krux-" ++ ver ++ ".zip") true ∈ l1 ∧
        Event.verifySig (args.destdir ++ "/krux-" ++ ver ++ ".zip")
          (args.destdir ++ "/selfcustody.pem") true ∈ l1 ∧
        Event.unzipKboot (args.destdir ++ "/krux-" ++ ver ++ ".zip") dev
          args.destdir ∈ l1 := by
  intro fw hfw
  have hm := main_official args env dev ver h1 h2 h3 h4 hd hd0 hv hv0 hb ho
  obtain ⟨pre, hpre, hc⟩ := download_and_verify_cases env args.destdir ver
  rcases hc with ⟨hs, he⟩ | ⟨hs, hg, he⟩ | ⟨hs, hg, he⟩
  · have hmm : (main args env).1 =
        pre ++ [Event.verifySha (args.destdir ++ "/krux-" ++ ver ++ ".zip") false] := by
      rw [hm, he]
    rw [hmm] at hfw
    rcases List.mem_append.mp hfw with h | h
    · have := hpre _ h
      simp [isDownloadEvent] at this
    · simp at h
  · have hmm : (main args env).1 =
        pre ++ [Event.verifySha (args.destdir ++ "/krux-" ++ ver ++ ".zip") true,
                Event.verifySig (args.destdir ++ "/krux-" ++ ver ++ ".zip")
                  (args.destdir ++ "/selfcustody.pem") false] := by
      rw [hm, he]
    rw [hmm] at hfw
    rcases List.mem_append.mp hfw with h | h
    · have := hpre _ h
      simp [isDownloadEvent] at this
    · simp at h
  · cases hf : args.flash with
    | false =>
        have hmm : (main args env).1 =
            pre ++ [Event.verifySha (args.destdir ++ "/krux-" ++ ver ++ ".zip") true,
                    Event.verifySig (args.destdir ++ "/krux-" ++ ver ++ ".zip")
                      (args.destdir ++ "/selfcustody.pem") true,
                    Event.unzipFirmware (args.destdir ++ "/krux-" ++ ver ++ ".zip")
                      dev args.destdir] := by
          rw [hm, he]
          simp [hf]
        rw [hmm] at hfw
        rcases List.mem_append.mp hfw with h | h
        · have := hpre _ h
          simp [isDownloadEvent] at this
        · simp at h
    | true =>
        have hmm : (main args env).1 =
            pre ++ [Event.verifySha (args.destdir ++ "/krux-" ++ ver ++ ".zip") true,
                    Event.verifySig (args.destdir ++ "/krux-" ++ ver ++ ".zip")
                      (args.destdir ++ "/selfcustody.pem") true,
                    Event.unzipKboot (args.destdir ++ "/krux-" ++ ver ++ ".zip")
                      dev args.destdir,
                    Event.flash (KBOOT_NAME args.destdir ver dev)] := by
          rw [hm, he]
          simp [hf]
        have hfwk : fw = KBOOT_NAME args.destdir ver dev := by
          rw [hmm] at hfw
          rcases List.mem_append.mp hfw with h | h
          · have := hpre _ h
            simp [isDownloadEvent] at this
          · simp only [List.mem_cons, List.mem_singleton] at h
            rcases h with h | h | h | h | h
            · simp at h
            · simp at h
            · simp at h
            · exact (Event.flash.injEq _ _).mp h
            · cases h
        subst hfwk
        refine ⟨rfl,
          pre ++ [Event.verifySha (args.destdir ++ "/krux-" ++ ver ++ ".zip") true,
                  Event.verifySig (args.destdir ++ "/krux-" ++ ver ++ ".zip")
                    (args.destdir ++ "/selfcustody.pem") true,
                  Event.unzipKboot (args.destdir ++ "/krux-" ++ ver ++ ".zip")
                    dev args.destdir],
          [], ?_, by simp, by simp, by simp⟩
        rw [hmm]
        simp

/-- Witness for C1 (amended): on `krux-installer -d amigo -f v24.03.0 -F`
with nothing cached and both checks passing, the flash of the extracted
kboot is preceded by both successful verification events on the zip. -/
theorem official_flash_gated_witness :
    KBOOT_NAME "/tmp" "v24.03.0" "amigo" = KBOOT_NAME "/tmp" "v24.03.0" "amigo" ∧
    ∃ l1 l2, (main argsOfficialFlash envAbsent).1 =
        l1 ++ Event.flash (KBOOT_NAME "/tmp" "v24.03.0" "amigo") :: l2 ∧
      Event.verifySha ("/tmp" ++ "/krux-" ++ "v24.03.0" ++ ".zip") true ∈ l1 ∧
      Event.verifySig ("/tmp" ++ "/krux-" ++ "v24.03.0" ++ ".zip")
        ("/tmp" ++ "/selfcustody.pem") true ∈ l1 ∧
      Event.unzipKboot ("/tmp" ++ "/krux-" ++ "v24.03.0" ++ ".zip") "amigo"
        "/tmp" ∈ l1 :=
  official_flash_gated argsOfficialFlash envAbsent "amigo" "v24.03.0"
    rfl rfl rfl rfl rfl (by decide) rfl (by decide) (by decide) (by decide)
    (KBOOT_NAME "/tmp" "v24.03.0" "amigo") (by decide)

end KruxInstaller
